import Mathlib

/-!
Verification of the authentication and session core of the band-practice
scheduler repository.

Server side (Express controllers and middleware) is embedded as pure
functions over an explicit database state `Db`; each Prisma call of the
source is one operation on `Db`.  The JWT codec is embedded abstractly:
a token is its decoded payload together with the identifier of the secret
that signed it and its issuance/expiry instants, so signature verification
is a check of the secret identifier and of the expiry.  Times are a single
`Nat` clock.

Client side (the Redux auth slice) is embedded as pure reducer functions
over `AuthState`, with durable storage as an explicit `Storage` record and
the JS truthiness coercion made explicit.

The concurrent behaviour of `refreshToken` is embedded as a small-step
machine `stepR` whose atomic steps are exactly the stretches of controller
code between two `await`ed database operations; an interleaving of two
concurrent calls is a schedule (a list of booleans) consumed by `runSched`.
-/

namespace BandAuth

/-- Decoded payload of a signed refresh token, together with the signing
data: `uid` is the embedded user id, `iat` the issuance instant, `sig`
identifies the secret that signed it and `exp` is the expiry instant
(`jwt.sign({ id: user.id }, JWT_REFRESH_SECRET, { expiresIn: 7d })`). -/
structure RefreshTok where
  uid : Nat
  iat : Nat
  sig : Nat
  exp : Nat
deriving DecidableEq, Repr

/-- Decoded payload of a signed access token
(`jwt.sign({ id, email, role }, JWT_SECRET, { expiresIn: 1h })`). -/
structure AccessTok where
  id : Nat
  email : String
  role : String
  iat : Nat
  sig : Nat
  exp : Nat
deriving DecidableEq, Repr

/-- Identifier of the `JWT_SECRET` signing secret. -/
def jwtSecret : Nat := 0

/-- Identifier of the distinct `JWT_REFRESH_SECRET` signing secret. -/
def jwtRefreshSecret : Nat := 1

/-- Access-token lifetime (`expiresIn: 1h`), in milliseconds. -/
def accessTtl : Nat := 60 * 60 * 1000

/-- Refresh-token lifetime (`expiresIn: 7d`, and also the
`expiresAt: Date.now() + 7 * 24 * 60 * 60 * 1000` stored with the record). -/
def refreshTtl : Nat := 7 * 24 * 60 * 60 * 1000

/-- A `user` row of the Prisma store (`register` writes exactly these
fields; `password` holds the bcrypt hash). -/
structure User where
  id : Nat
  email : String
  password : String
  firstName : String
  lastName : String
  role : String
  active : Bool
deriving DecidableEq, Repr

/-- A `refreshToken` row of the Prisma store. -/
structure StoredRT where
  id : Nat
  token : RefreshTok
  userId : Nat
  expiresAt : Nat
deriving DecidableEq, Repr

/-- A `bandMember` row, as consulted by the `isBandMember` middleware. -/
structure BandMember where
  bandId : String
  userId : Nat
deriving DecidableEq, Repr

/-- The Prisma database state.  `nextUserId` and `nextTokenId` model the
freshness of generated primary keys. -/
structure Db where
  users : List User
  refreshTokens : List StoredRT
  bandMembers : List BandMember
  nextUserId : Nat
  nextTokenId : Nat
deriving DecidableEq, Repr

/-- Typed errors thrown by the controllers, matching `utils/errors.ts`,
plus the error Prisma itself throws when `delete` finds no row. -/
inductive AppErr where
  | authError (msg : String)
  | validationError (msg : String)
  | notFoundError (msg : String)
  | forbiddenError (msg : String)
  | prismaKnownRequestError (msg : String)
deriving DecidableEq, Repr

/-- The global error handler of `middleware/errorHandler.ts`, mapped to the
HTTP status and message it sends: `AuthError` instances get 401 with their
message, `PrismaClientKnownRequestError` gets 400 with a fixed message, and
everything else (including `ValidationError` and `ForbiddenError`, which the
handler does not test for) falls through to the 500 default. -/
def errorHandler : AppErr → Nat × String
  | .authError msg => (401, msg)
  | .prismaKnownRequestError _ => (400, "Database operation failed")
  | .validationError _ => (500, "Internal server error")
  | .notFoundError _ => (500, "Internal server error")
  | .forbiddenError _ => (500, "Internal server error")

/-- `bcrypt.hash(password, 12)`, embedded as an injective tagging. -/
def bcryptHash (pw : String) : String := "bcrypt$" ++ pw

/-- `bcrypt.compare(password, hash)`. -/
def bcryptCompare (pw hash : String) : Bool := hash == bcryptHash pw

/-- The refresh token minted by `generateTokens` at instant `now`. -/
def mkRefreshTok (uid now : Nat) : RefreshTok :=
  { uid := uid, iat := now, sig := jwtRefreshSecret, exp := now + refreshTtl }

/-- The access token minted by `generateTokens` at instant `now`. -/
def mkAccessTok (user : User) (now : Nat) : AccessTok :=
  { id := user.id, email := user.email, role := user.role,
    iat := now, sig := jwtSecret, exp := now + accessTtl }

/-- `generateTokens(user)` of `authController.ts`. -/
def generateTokens (user : User) (now : Nat) : AccessTok × RefreshTok :=
  (mkAccessTok user now, mkRefreshTok user.id now)

/-- `jwt.verify(token, JWT_REFRESH_SECRET)`: succeeds with the embedded
user id exactly when the token was signed by the refresh secret and has
not expired. -/
def jwtVerifyRefresh (tok : RefreshTok) (now : Nat) : Option Nat :=
  if tok.sig == jwtRefreshSecret && decide (now < tok.exp) then some tok.uid else none

/-- `prisma.user.findUnique({ where: { email } })`. -/
def findUserByEmail (db : Db) (email : String) : Option User :=
  db.users.find? (fun u => u.email == email)

/-- `prisma.user.findUnique({ where: { id } })`. -/
def findUserById (db : Db) (id : Nat) : Option User :=
  db.users.find? (fun u => u.id == id)

/-- `prisma.refreshToken.findFirst({ where: { token, userId, expiresAt: { gt: new Date() } } })`. -/
def refreshTokenFindFirst (db : Db) (tok : RefreshTok) (uid now : Nat) : Option StoredRT :=
  db.refreshTokens.find?
    (fun r => r.token == tok && r.userId == uid && decide (now < r.expiresAt))

/-- `prisma.refreshToken.delete({ where: { id } })`: removes the row with
the given id, or throws `PrismaClientKnownRequestError` when no such row
exists. -/
def refreshTokenDelete (db : Db) (rid : Nat) : Except AppErr Db :=
  if db.refreshTokens.any (fun r => r.id == rid) then
    .ok { db with refreshTokens := db.refreshTokens.filter (fun r => !(r.id == rid)) }
  else
    .error (.prismaKnownRequestError "Record to delete does not exist.")

/-- `prisma.refreshToken.create({ data: { token, userId, expiresAt } })`. -/
def refreshTokenCreate (db : Db) (tok : RefreshTok) (uid expiresAt : Nat) : Db :=
  { db with
    refreshTokens := ⟨db.nextTokenId, tok, uid, expiresAt⟩ :: db.refreshTokens,
    nextTokenId := db.nextTokenId + 1 }

/-- The `register` controller (`POST /api/auth/register`): rejects a
duplicate email with `ValidationError('Email already in use')`, otherwise
creates the user with `role: 'USER'`, mints both tokens and stores the
refresh token. -/
def register (db : Db) (now : Nat) (email password firstName lastName : String) :
    Except AppErr (User × AccessTok × RefreshTok) × Db :=
  match findUserByEmail db email with
  | some _ => (.error (.validationError "Email already in use"), db)
  | none =>
    let newUser : User :=
      { id := db.nextUserId, email := email, password := bcryptHash password,
        firstName := firstName, lastName := lastName, role := "USER", active := true }
    let db1 : Db := { db with users := newUser :: db.users, nextUserId := db.nextUserId + 1 }
    let tokens := generateTokens newUser now
    (.ok (newUser, tokens), refreshTokenCreate db1 tokens.2 newUser.id (now + refreshTtl))

/-- The `login` controller (`POST /api/auth/login`): a missing or inactive
user and a wrong password all fail with the same
`AuthError('Invalid credentials')`; on success fresh tokens are minted and
the refresh token is stored. -/
def login (db : Db) (now : Nat) (email password : String) :
    Except AppErr (User × AccessTok × RefreshTok) × Db :=
  match findUserByEmail db email with
  | none => (.error (.authError "Invalid credentials"), db)
  | some user =>
    if !user.active then (.error (.authError "Invalid credentials"), db)
    else if !bcryptCompare password user.password then
      (.error (.authError "Invalid credentials"), db)
    else
      let tokens := generateTokens user now
      (.ok (user, tokens), refreshTokenCreate db tokens.2 user.id (now + refreshTtl))

instance {ε α : Type} [DecidableEq ε] [DecidableEq α] : DecidableEq (Except ε α) := fun x y =>
  match x, y with
  | .ok a, .ok b =>
    if h : a = b then .isTrue (by rw [h]) else .isFalse (by intro he; cases he; exact h rfl)
  | .error a, .error b =>
    if h : a = b then .isTrue (by rw [h]) else .isFalse (by intro he; cases he; exact h rfl)
  | .ok _, .error _ => .isFalse (by intro he; cases he)
  | .error _, .ok _ => .isFalse (by intro he; cases he)

/-- Control state of one in-flight `refreshToken` request.  Each
constructor is a point between two `await`ed database operations of the
controller; the code between two such points runs atomically. -/
inductive RState where
  | start (tok : RefreshTok)
  | found (tok : RefreshTok) (rec : StoredRT)
  | haveUser (rec : StoredRT) (user : User)
  | deleted (user : User)
  | done (res : Except AppErr (AccessTok × RefreshTok))
deriving DecidableEq, Repr

/-- One atomic step of the `refreshToken` controller: verify+findFirst,
then the user lookup, then the delete of the consumed row, then the create
of its replacement.  `done` is absorbing. -/
def stepR (now : Nat) : Db × RState → Db × RState
  | (db, .start tok) =>
    match jwtVerifyRefresh tok now with
    | none => (db, .done (.error (.authError "Invalid refresh token")))
    | some uid =>
      match refreshTokenFindFirst db tok uid now with
      | none => (db, .done (.error (.authError "Invalid or expired refresh token")))
      | some rec => (db, .found tok rec)
  | (db, .found tok rec) =>
    match findUserById db tok.uid with
    | none => (db, .done (.error (.authError "User not found or deactivated")))
    | some user =>
      if user.active then (db, .haveUser rec user)
      else (db, .done (.error (.authError "User not found or deactivated")))
  | (db, .haveUser rec user) =>
    match refreshTokenDelete db rec.id with
    | .error e => (db, .done (.error e))
    | .ok db2 => (db2, .deleted user)
  | (db, .deleted user) =>
    let tokens := generateTokens user now
    (refreshTokenCreate db tokens.2 user.id (now + refreshTtl), .done (.ok tokens))
  | (db, .done res) => (db, .done res)

/-- The `refreshToken` controller (`POST /api/auth/refresh-token`) run to
completion in isolation: the four steps of `stepR` in sequence. -/
def refreshToken (db : Db) (now : Nat) (tok : RefreshTok) :
    Except AppErr (AccessTok × RefreshTok) × Db :=
  match stepR now (stepR now (stepR now (stepR now (db, .start tok)))) with
  | (db4, .done res) => (res, db4)
  | (db4, _) => (.error (.authError "Invalid refresh token"), db4)

/-- The `req.user` claims attached by the authentication middleware. -/
structure ReqUser where
  id : Nat
  email : String
  role : String
deriving DecidableEq, Repr

/-- The `isBandMember` middleware: unauthenticated callers are rejected, a
missing (falsy) `bandId` is rejected, `'ADMIN'` callers pass
unconditionally, and other callers pass exactly when a `bandMember` row
links them to the band.  The database is returned unchanged: the
middleware only reads. -/
def isBandMember (user : Option ReqUser) (bandId : String) (db : Db) :
    Except AppErr Unit × Db :=
  match user with
  | none => (.error (.authError "User not authenticated"), db)
  | some u =>
    if bandId == "" then (.error (.forbiddenError "Band ID is required"), db)
    else if u.role == "ADMIN" then (.ok (), db)
    else
      match db.bandMembers.find? (fun m => m.bandId == bandId && m.userId == u.id) with
      | none => (.error (.forbiddenError "You are not a member of this band"), db)
      | some _ => (.ok (), db)

/-- The `User` shape the client slice decodes out of a JWT payload. -/
structure ClientUser where
  id : String
  email : String
  firstName : String
  lastName : String
  role : String
deriving DecidableEq, Repr

/-- The `AuthState` of the Redux auth slice.  Nullable JS fields are
`Option`s. -/
structure AuthState where
  user : Option ClientUser
  token : Option String
  refreshToken : Option String
  isAuthenticated : Bool
  isLoading : Bool
  error : Option String
deriving DecidableEq, Repr

/-- Durable client storage (`localStorage`) under its two fixed keys. -/
structure Storage where
  token : Option String
  refreshToken : Option String
deriving DecidableEq, Repr

/-- The JS `Boolean(...)` coercion on the result of
`localStorage.getItem`: `null` and the empty string are falsy, every other
string is truthy. -/
def jsTruthy : Option String → Bool
  | none => false
  | some s => !s.isEmpty

/-- The `initialState` of the auth slice: tokens are read from durable
storage, `isAuthenticated` is `Boolean(localStorage.getItem('token'))`,
and `user` starts as `null`. -/
def initialState (st : Storage) : AuthState :=
  { user := none, token := st.token, refreshToken := st.refreshToken,
    isAuthenticated := jsTruthy st.token, isLoading := false, error := none }

/-- Payload fields the login/register fulfilled reducers read off the
response (`action.payload.token`, `action.payload.refreshToken`); either
may be absent. -/
structure AuthPayload where
  token : Option String
  refreshToken : Option String
deriving DecidableEq, Repr

/-- `login.pending` reducer. -/
def loginPending (s : AuthState) : AuthState :=
  { s with isLoading := true, error := none }

/-- `login.fulfilled` reducer.  `dec` is the outcome of the
`jwtDecode(action.payload.token)` call: on success the decoded identity is
stored, on a decoding exception the tokens are kept but
`'Invalid token received'` is recorded. -/
def loginFulfilled (s : AuthState) (p : AuthPayload) (dec : Except Unit ClientUser) :
    AuthState :=
  let s1 := { s with isLoading := false, isAuthenticated := true,
                     token := p.token, refreshToken := p.refreshToken }
  match dec with
  | .ok u => { s1 with user := some u }
  | .error _ => { s1 with error := some "Invalid token received" }

/-- `login.rejected` reducer. -/
def loginRejected (s : AuthState) (msg : String) : AuthState :=
  { s with isLoading := false, isAuthenticated := false, error := some msg }

/-- `register.pending` reducer (same body as `login.pending`). -/
def registerPending (s : AuthState) : AuthState :=
  { s with isLoading := true, error := none }

/-- `register.fulfilled` reducer (same body as `login.fulfilled`). -/
def registerFulfilled (s : AuthState) (p : AuthPayload) (dec : Except Unit ClientUser) :
    AuthState :=
  let s1 := { s with isLoading := false, isAuthenticated := true,
                     token := p.token, refreshToken := p.refreshToken }
  match dec with
  | .ok u => { s1 with user := some u }
  | .error _ => { s1 with error := some "Invalid token received" }

/-- `register.rejected` reducer. -/
def registerRejected (s : AuthState) (msg : String) : AuthState :=
  { s with isLoading := false, isAuthenticated := false, error := some msg }

/-- `refreshToken.pending` reducer. -/
def refreshPending (s : AuthState) : AuthState :=
  { s with isLoading := true, error := none }

/-- `refreshToken.fulfilled` reducer: stores the new access token and
re-decodes the identity from it. -/
def refreshFulfilled (s : AuthState) (tok : Option String) (dec : Except Unit ClientUser) :
    AuthState :=
  let s1 := { s with isLoading := false, isAuthenticated := true, token := tok }
  match dec with
  | .ok u => { s1 with user := some u }
  | .error _ => { s1 with error := some "Invalid token received" }

/-- `refreshToken.rejected` reducer: clears both tokens and the identity
and records the rejection message. -/
def refreshRejected (s : AuthState) (msg : String) : AuthState :=
  { s with isLoading := false, isAuthenticated := false,
           token := none, refreshToken := none, user := none, error := some msg }

/-- `logout.pending` reducer: only sets the loading flag. -/
def logoutPending (s : AuthState) : AuthState :=
  { s with isLoading := true }

/-- `logout.fulfilled` reducer: clears tokens, identity and error. -/
def logoutFulfilled (s : AuthState) : AuthState :=
  { s with isLoading := false, isAuthenticated := false,
           token := none, refreshToken := none, user := none, error := none }

/-- `logout.rejected` reducer: clears tokens and identity; the source
deliberately does not touch `state.error` here ("We don't set error here
because logout should succeed from the UI perspective"). -/
def logoutRejected (s : AuthState) : AuthState :=
  { s with isLoading := false, isAuthenticated := false,
           token := none, refreshToken := none, user := none }

/-- Effect of the `logout` thunk on durable storage: both items are
removed in the success path and in the catch path alike. -/
def logoutThunkStorage (serverOk : Bool) (_st : Storage) : Storage :=
  if serverOk then { token := none, refreshToken := none }
  else { token := none, refreshToken := none }

/-- The full client-side `logout()` transition on the slice state: the
pending reducer followed by the fulfilled reducer when the server call
succeeded, or by the rejected reducer when it failed. -/
def logoutClient (serverOk : Bool) (s : AuthState) : AuthState :=
  if serverOk then logoutFulfilled (logoutPending s)
  else logoutRejected (logoutPending s)

/-- Effect of the `refreshToken` thunk's catch path on durable storage:
both items are removed. -/
def refreshThunkFailStorage (_st : Storage) : Storage :=
  { token := none, refreshToken := none }

/-!  Branch lemmas for the sequential `refreshToken` controller.  -/

lemma refreshToken_verify_none {db : Db} {now : Nat} {t : RefreshTok}
    (h : jwtVerifyRefresh t now = none) :
    refreshToken db now t = (.error (.authError "Invalid refresh token"), db) := by
  unfold refreshToken
  simp [stepR, h]

lemma refreshToken_find_none {db : Db} {now uid : Nat} {t : RefreshTok}
    (h1 : jwtVerifyRefresh t now = some uid)
    (h2 : refreshTokenFindFirst db t uid now = none) :
    refreshToken db now t = (.error (.authError "Invalid or expired refresh token"), db) := by
  unfold refreshToken
  simp [stepR, h1, h2]

lemma refreshToken_user_none {db : Db} {now uid : Nat} {t : RefreshTok} {rec : StoredRT}
    (h1 : jwtVerifyRefresh t now = some uid)
    (h2 : refreshTokenFindFirst db t uid now = some rec)
    (h3 : findUserById db t.uid = none) :
    refreshToken db now t = (.error (.authError "User not found or deactivated"), db) := by
  unfold refreshToken
  simp [stepR, h1, h2, h3]

lemma refreshToken_user_inactive {db : Db} {now uid : Nat} {t : RefreshTok} {rec : StoredRT}
    {user : User}
    (h1 : jwtVerifyRefresh t now = some uid)
    (h2 : refreshTokenFindFirst db t uid now = some rec)
    (h3 : findUserById db t.uid = some user)
    (h4 : user.active = false) :
    refreshToken db now t = (.error (.authError "User not found or deactivated"), db) := by
  unfold refreshToken
  simp [stepR, h1, h2, h3, h4]

lemma refreshToken_success {db : Db} {now uid : Nat} {t : RefreshTok} {rec : StoredRT}
    {user : User}
    (h1 : jwtVerifyRefresh t now = some uid)
    (h2 : refreshTokenFindFirst db t uid now = some rec)
    (h3 : findUserById db t.uid = some user)
    (h4 : user.active = true)
    (h5 : db.refreshTokens.any (fun r => r.id == rec.id) = true) :
    refreshToken db now t =
      (.ok (generateTokens user now),
       refreshTokenCreate
         { db with refreshTokens := db.refreshTokens.filter (fun r => !(r.id == rec.id)) }
         (generateTokens user now).2 user.id (now + refreshTtl)) := by
  unfold refreshToken
  simp [stepR, h1, h2, h3, h4, refreshTokenDelete, h5]

/-- A record returned by `refreshTokenFindFirst` is in the store and
matches the query. -/
lemma findFirst_spec {db : Db} {t : RefreshTok} {uid now : Nat} {rec : StoredRT}
    (h : refreshTokenFindFirst db t uid now = some rec) :
    rec ∈ db.refreshTokens ∧ rec.token = t ∧ rec.userId = uid ∧ now < rec.expiresAt := by
  have hmem := List.mem_of_find?_eq_some h
  have hp := List.find?_some h
  simp only [Bool.and_eq_true, beq_iff_eq, decide_eq_true_eq] at hp
  exact ⟨hmem, hp.1.1, hp.1.2, hp.2⟩

/-- In the sequential controller the `delete` step cannot fail, so every
failing run leaves the store untouched. -/
lemma refreshToken_error_db_unchanged {db db2 : Db} {now : Nat} {t : RefreshTok} {e : AppErr}
    (h : refreshToken db now t = (.error e, db2)) : db2 = db := by
  rcases hv : jwtVerifyRefresh t now with _ | uid
  · rw [refreshToken_verify_none hv] at h
    exact (Prod.mk.injEq _ _ _ _ ▸ h).2.symm ▸ rfl
  · rcases hf : refreshTokenFindFirst db t uid now with _ | rec
    · rw [refreshToken_find_none hv hf] at h
      cases h; rfl
    · rcases hu : findUserById db t.uid with _ | user
      · rw [refreshToken_user_none hv hf hu] at h
        cases h; rfl
      · rcases hact : user.active with _ | _
        · rw [refreshToken_user_inactive hv hf hu hact] at h
          cases h; rfl
        · have hany : db.refreshTokens.any (fun r => r.id == rec.id) = true := by
            exact List.any_eq_true.mpr ⟨rec, (findFirst_spec hf).1, by simp⟩
          rw [refreshToken_success hv hf hu hact hany] at h
          cases h

/-!  Concrete sample data used by counterexamples and witnesses.  -/

/-- An inactive account holding a stored refresh token. -/
def sampleUserInactive : User :=
  { id := 1, email := "a@x.com", password := bcryptHash "Abcd1234",
    firstName := "Ann", lastName := "Lee", role := "USER", active := false }

/-- A refresh token for user 1 issued at instant 0. -/
def sampleTok : RefreshTok := mkRefreshTok 1 0

/-- A store holding the inactive account and its persisted refresh token. -/
def sampleDbInactive : Db :=
  { users := [sampleUserInactive],
    refreshTokens := [⟨0, sampleTok, 1, refreshTtl⟩],
    bandMembers := [], nextUserId := 2, nextTokenId := 1 }

/-- Claim C3, counterexample: starting from a session that still carries a
stale error message, a `logout()` whose server call fails ends with that
same non-null error — the `logout.rejected` reducer clears tokens and
identity but leaves `state.error` untouched, so the claimed
`error = null` postcondition is violated. -/
theorem c3_stale_error_survives_failed_logout :
    (logoutClient false
      { user := none, token := some "tk", refreshToken := some "rt",
        isAuthenticated := true, isLoading := false,
        error := some "Login failed. Please try again." }).error =
      some "Login failed. Please try again." ∧
    (logoutClient false
      { user := none, token := some "tk", refreshToken := some "rt",
        isAuthenticated := true, isLoading := false,
        error := some "Login failed. Please try again." }).error ≠ none := by
  decide

/-- Claim C3, amended: `logout()` always ends with
`isAuthenticated = false`, both tokens and the identity cleared, and both
durable-storage keys removed, whether the server call succeeds or fails;
on success `error` is `null`, but on failure `error` is left exactly as it
was before the logout (no new error is surfaced, and a pre-existing one is
not cleared). -/
theorem c3_logout_always_clears_session (s : AuthState) (ok : Bool) (st : Storage) :
    (logoutClient ok s).isAuthenticated = false ∧
    (logoutClient ok s).token = none ∧
    (logoutClient ok s).refreshToken = none ∧
    (logoutClient ok s).user = none ∧
    (logoutClient true s).error = none ∧
    (logoutClient false s).error = s.error ∧
    logoutThunkStorage ok st = { token := none, refreshToken := none } := by
  cases ok <;>
    simp [logoutClient, logoutFulfilled, logoutRejected, logoutPending, logoutThunkStorage]

/-- Claim C4, counterexample: a failing `refreshToken` call (here: the
account was deactivated after the token was stored) leaves the
server-persisted refresh-token record in place — the controller's failure
paths all throw before the `delete`, so the claimed clearing of "any
server-persisted refresh-token record" does not happen. -/
theorem c4_failed_refresh_keeps_server_record :
    (refreshToken sampleDbInactive 5 sampleTok).1 =
      .error (.authError "User not found or deactivated") ∧
    (refreshToken sampleDbInactive 5 sampleTok).2 = sampleDbInactive ∧
    sampleDbInactive.refreshTokens ≠ [] := by
  decide

/-- Claim C4, amended: a failing `refresh()` is a full teardown of the
client session only — the rejected reducer clears both tokens and the
identity and records the error, the thunk's catch path clears both
durable-storage keys, but the server-side store is left exactly as it was
(no persisted refresh-token record is deleted on failure). -/
theorem c4_refresh_failure_is_client_only_teardown (s : AuthState) (msg : String)
    (st : Storage) (db db2 : Db) (now : Nat) (t : RefreshTok) (e : AppErr)
    (h : refreshToken db now t = (.error e, db2)) :
    refreshRejected s msg =
      { user := none, token := none, refreshToken := none,
        isAuthenticated := false, isLoading := false, error := some msg } ∧
    refreshThunkFailStorage st = { token := none, refreshToken := none } ∧
    db2 = db := by
  exact ⟨rfl, rfl, refreshToken_error_db_unchanged h⟩

/-- Witness for the amended C4 theorem at a concrete failing refresh. -/
theorem c4_refresh_failure_is_client_only_teardown_witness :
    refreshRejected
      { user := none, token := none, refreshToken := none,
        isAuthenticated := false, isLoading := false, error := none }
      "Session expired. Please log in again." =
      { user := none, token := none, refreshToken := none,
        isAuthenticated := false, isLoading := false,
        error := some "Session expired. Please log in again." } ∧
    refreshThunkFailStorage { token := none, refreshToken := none } =
      { token := none, refreshToken := none } ∧
    sampleDbInactive = sampleDbInactive :=
  c4_refresh_failure_is_client_only_teardown
    { user := none, token := none, refreshToken := none,
      isAuthenticated := false, isLoading := false, error := none }
    "Session expired. Please log in again."
    { token := none, refreshToken := none }
    sampleDbInactive sampleDbInactive 5 sampleTok
    (.authError "User not found or deactivated") (by decide)

/-- Claim C10, counterexample: with the empty string stored under the
`token` key, an access-token string is present in durable storage, yet
`Boolean('')` is `false`, so the initialized session has
`isAuthenticated = false` — the claimed "if and only if a token string is
present" fails. -/
theorem c10_empty_token_string_not_authenticated :
    ({ token := some "", refreshToken := none } : Storage).token ≠ none ∧
    (initialState { token := some "", refreshToken := none }).isAuthenticated = false := by
  decide

/-- Claim C10, amended: at client session initialization `user` is always
`null` and the stored token strings are adopted unverified;
`isAuthenticated` is `true` iff a non-empty access-token string is present
in durable storage (JS truthiness), so an initialized session can be
authenticated with a `null` identity and no verification of the stored
token. -/
theorem c10_initial_session_shape (st : Storage) :
    (initialState st).user = none ∧
    (initialState st).token = st.token ∧
    (initialState st).refreshToken = st.refreshToken ∧
    (initialState st).isLoading = false ∧
    (initialState st).error = none ∧
    ((initialState st).isAuthenticated = true ↔ ∃ s, st.token = some s ∧ s ≠ "") := by
  refine ⟨rfl, rfl, rfl, rfl, rfl, ?_⟩
  cases h : st.token with
  | none => simp [initialState, jsTruthy, h]
  | some s =>
    simp [initialState, jsTruthy, h]
    rw [Bool.eq_false_iff]
    exact not_congr (String.isEmpty_iff s)

/-- An empty store. -/
def dbEmpty : Db :=
  { users := [], refreshTokens := [], bandMembers := [], nextUserId := 0, nextTokenId := 0 }

/-- An active account whose email is registered. -/
def sampleUserActive : User :=
  { id := 1, email := "a@x.com", password := bcryptHash "Abcd1234",
    firstName := "Ann", lastName := "Lee", role := "USER", active := true }

/-- A store holding only the active account (and no band-membership rows). -/
def sampleDbActive : Db :=
  { users := [sampleUserActive], refreshTokens := [],
    bandMembers := [], nextUserId := 2, nextTokenId := 0 }

/-- The `newUser` row built by the `register` controller. -/
def newUserOf (db : Db) (email pw fn ln : String) : User :=
  { id := db.nextUserId, email := email, password := bcryptHash pw,
    firstName := fn, lastName := ln, role := "USER", active := true }

lemma register_success (db : Db) (now : Nat) (email pw fn ln : String)
    (h : findUserByEmail db email = none) :
    register db now email pw fn ln =
      (.ok (newUserOf db email pw fn ln, generateTokens (newUserOf db email pw fn ln) now),
       refreshTokenCreate
         { db with users := newUserOf db email pw fn ln :: db.users,
                   nextUserId := db.nextUserId + 1 }
         (generateTokens (newUserOf db email pw fn ln) now).2
         (newUserOf db email pw fn ln).id (now + refreshTtl)) := by
  unfold register newUserOf
  rw [h]

/-- Claim C1, counterexample: registering a fresh email creates an
identity whose stored role literal is `'USER'`, not `'member'` — the
backend's default role constant differs from the `member` literal of the
specification's role vocabulary (which is also the client's declared
`Role` type `admin | manager | member`). -/
theorem c1_created_role_is_user_literal :
    (register dbEmpty 0 "a@x.com" "Abcd1234" "Ann" "Lee").1.map (fun o => o.1.role) =
      .ok "USER" ∧
    ("USER" : String) ≠ "member" := by
  decide

/-- Claim C1, amended: for every registration input whose email is not
already registered, `register` succeeds, the created identity carries the
backend's default non-privileged role — the literal `'USER'`, which is the
spec's `member` role but not its literal name — and is stored; and the
client's `register.fulfilled` reducer always sets
`isAuthenticated = true`. -/
theorem c1_register_succeeds_with_default_role (db : Db) (now : Nat)
    (email pw fn ln : String) (h : findUserByEmail db email = none) :
    (register db now email pw fn ln).1 =
      .ok (newUserOf db email pw fn ln, generateTokens (newUserOf db email pw fn ln) now) ∧
    (newUserOf db email pw fn ln).role = "USER" ∧
    (newUserOf db email pw fn ln).role ≠ "ADMIN" ∧
    (newUserOf db email pw fn ln).email = email ∧
    (register db now email pw fn ln).2.users = newUserOf db email pw fn ln :: db.users ∧
    (∀ (s : AuthState) (p : AuthPayload) (dec : Except Unit ClientUser),
      (registerFulfilled s p dec).isAuthenticated = true) := by
  rw [register_success db now email pw fn ln h]
  refine ⟨rfl, rfl, by show ("USER" : String) ≠ "ADMIN"; decide, rfl, rfl, ?_⟩
  intro s p dec
  cases dec <;> rfl

/-- Witness for the amended C1 theorem on an empty store. -/
theorem c1_register_succeeds_with_default_role_witness :
    (register dbEmpty 0 "a@x.com" "Abcd1234" "Ann" "Lee").1 =
      .ok (newUserOf dbEmpty "a@x.com" "Abcd1234" "Ann" "Lee",
           generateTokens (newUserOf dbEmpty "a@x.com" "Abcd1234" "Ann" "Lee") 0) ∧
    (newUserOf dbEmpty "a@x.com" "Abcd1234" "Ann" "Lee").role = "USER" ∧
    (newUserOf dbEmpty "a@x.com" "Abcd1234" "Ann" "Lee").role ≠ "ADMIN" ∧
    (newUserOf dbEmpty "a@x.com" "Abcd1234" "Ann" "Lee").email = "a@x.com" ∧
    (register dbEmpty 0 "a@x.com" "Abcd1234" "Ann" "Lee").2.users =
      newUserOf dbEmpty "a@x.com" "Abcd1234" "Ann" "Lee" :: dbEmpty.users ∧
    (∀ (s : AuthState) (p : AuthPayload) (dec : Except Unit ClientUser),
      (registerFulfilled s p dec).isAuthenticated = true) :=
  c1_register_succeeds_with_default_role dbEmpty 0 "a@x.com" "Abcd1234" "Ann" "Lee"
    (by decide)

/-- Claim C5: a login attempt that does not match an active account with
the right password always fails with the same generic
`AuthError('Invalid credentials')` and leaves the store unchanged, whether
the email belongs to an existing account (wrong password) or to no account
at all — the two runs are indistinguishable. -/
theorem c5_login_no_user_enumeration
    (db1 db2 : Db) (now1 now2 : Nat) (email1 email2 pw1 pw2 : String) (u : User)
    (hA1 : findUserByEmail db1 email1 = some u)
    (hA2 : bcryptCompare pw1 u.password = false)
    (hB : findUserByEmail db2 email2 = none) :
    login db1 now1 email1 pw1 = (.error (.authError "Invalid credentials"), db1) ∧
    login db2 now2 email2 pw2 = (.error (.authError "Invalid credentials"), db2) ∧
    (login db1 now1 email1 pw1).1 = (login db2 now2 email2 pw2).1 := by
  have h1 : login db1 now1 email1 pw1 = (.error (.authError "Invalid credentials"), db1) := by
    unfold login
    rw [hA1]
    cases hact : u.active <;> simp [hact, hA2]
  have h2 : login db2 now2 email2 pw2 = (.error (.authError "Invalid credentials"), db2) := by
    unfold login
    rw [hB]
  exact ⟨h1, h2, by rw [h1, h2]⟩

/-- Witness for C5: wrong password on the registered email versus any
password on an unknown email. -/
theorem c5_login_no_user_enumeration_witness :
    login sampleDbActive 0 "a@x.com" "WrongPw99" =
      (.error (.authError "Invalid credentials"), sampleDbActive) ∧
    login sampleDbActive 0 "b@x.com" "WrongPw99" =
      (.error (.authError "Invalid credentials"), sampleDbActive) ∧
    (login sampleDbActive 0 "a@x.com" "WrongPw99").1 =
      (login sampleDbActive 0 "b@x.com" "WrongPw99").1 :=
  c5_login_no_user_enumeration sampleDbActive sampleDbActive 0 0 "a@x.com" "b@x.com"
    "WrongPw99" "WrongPw99" sampleUserActive (by decide) (by decide) (by decide)

lemma isBandMember_unfold (u : ReqUser) (bandId : String) (db : Db)
    (h : (bandId == "") = false) :
    isBandMember (some u) bandId db =
      (if u.role == "ADMIN" then .ok ()
       else if db.bandMembers.any (fun m => m.bandId == bandId && m.userId == u.id) then
         .ok ()
       else .error (.forbiddenError "You are not a member of this band"), db) := by
  unfold isBandMember
  simp only [h, Bool.false_eq_true, if_false]
  by_cases hrole : (u.role == "ADMIN") = true
  · simp [hrole]
  · have hr : (u.role == "ADMIN") = false := by
      cases hc : (u.role == "ADMIN") with
      | false => rfl
      | true => exact absurd hc hrole
    simp only [hr, Bool.false_eq_true, if_false]
    cases hf : db.bandMembers.find? (fun m => m.bandId == bandId && m.userId == u.id) with
    | none =>
      have hany : db.bandMembers.any (fun m => m.bandId == bandId && m.userId == u.id)
          = false := by
        rw [Bool.eq_false_iff]
        intro hc
        obtain ⟨x, hx, hpx⟩ := List.any_eq_true.mp hc
        exact absurd hpx (by simpa using List.find?_eq_none.mp hf x hx)
      simp [hany]
    | some mrec =>
      have hp := List.find?_some hf
      have hany : db.bandMembers.any (fun m => m.bandId == bandId && m.userId == u.id)
          = true :=
        List.any_eq_true.mpr ⟨mrec, List.mem_of_find?_eq_some hf, hp⟩
      simp [hany]

/-- Claim C6: with a non-empty `bandId` (a matched route parameter is
never the empty string), the `isBandMember` middleware never changes the
store, passes unconditionally for a caller whose claims carry the `ADMIN`
role (on any store, including one with no membership rows), and for any
other caller passes exactly when a `bandMember` row for
`(bandId, caller id)` exists, failing with the Forbidden error
otherwise. -/
theorem c6_band_membership_predicate (u : ReqUser) (bandId : String) (db : Db)
    (h : bandId ≠ "") :
    (isBandMember (some u) bandId db).2 = db ∧
    (u.role = "ADMIN" → (isBandMember (some u) bandId db).1 = .ok ()) ∧
    (u.role ≠ "ADMIN" →
      (isBandMember (some u) bandId db).1 =
        (if db.bandMembers.any (fun m => m.bandId == bandId && m.userId == u.id) then
           .ok ()
         else .error (.forbiddenError "You are not a member of this band"))) := by
  have hb : (bandId == "") = false := beq_eq_false_iff_ne.mpr h
  rw [isBandMember_unfold u bandId db hb]
  refine ⟨rfl, ?_, ?_⟩
  · intro hrole
    simp [hrole]
  · intro hrole
    have hr : (u.role == "ADMIN") = false := beq_eq_false_iff_ne.mpr hrole
    simp [hr]

/-- Witness for C6: an `ADMIN` caller passes on a band id for which the
store has no membership rows at all, and the store is unchanged. -/
theorem c6_band_membership_predicate_witness :
    (isBandMember (some ⟨7, "root@x.com", "ADMIN"⟩) "band-no-rows" sampleDbActive).2 =
      sampleDbActive ∧
    (isBandMember (some ⟨7, "root@x.com", "ADMIN"⟩) "band-no-rows" sampleDbActive).1 =
      .ok () := by
  have H := c6_band_membership_predicate ⟨7, "root@x.com", "ADMIN"⟩ "band-no-rows"
    sampleDbActive (by decide)
  exact ⟨H.1, H.2.1 rfl⟩

/-- Claim C7: `register` on an already-registered email fails with the
duplicate-email `ValidationError('Email already in use')` and returns the
store unchanged — no identity is created. -/
theorem c7_duplicate_email_register_rejected (db : Db) (now : Nat)
    (email pw fn ln : String) (u : User) (h : findUserByEmail db email = some u) :
    register db now email pw fn ln =
      (.error (.validationError "Email already in use"), db) := by
  unfold register
  rw [h]

/-- Witness for C7 on the store already holding `a@x.com`. -/
theorem c7_duplicate_email_register_rejected_witness :
    register sampleDbActive 0 "a@x.com" "Xyzw5678" "Bo" "Kim" =
      (.error (.validationError "Email already in use"), sampleDbActive) :=
  c7_duplicate_email_register_rejected sampleDbActive 0 "a@x.com" "Xyzw5678" "Bo" "Kim"
    sampleUserActive (by decide)

/-- A list containing two different elements has length at least two. -/
lemma two_le_length_of_mem_mem {α : Type} {a b : α} {l : List α}
    (ha : a ∈ l) (hb : b ∈ l) (hne : a ≠ b) : 2 ≤ l.length := by
  cases l with
  | nil => cases ha
  | cons x xs =>
    rcases List.mem_cons.mp ha with rfl | ha1
    · rcases List.mem_cons.mp hb with rfl | hb1
      · exact absurd rfl hne
      · have : 0 < xs.length := List.length_pos_of_mem hb1
        simpa [List.length_cons] using Nat.succ_le_succ this
    · have : 0 < xs.length := List.length_pos_of_mem ha1
      simpa [List.length_cons] using Nat.succ_le_succ this

/-- Deleting (by row id) the unique row bearing token `t` leaves no row
bearing `t`: if at most one stored row carries `t` and `rec` is such a
row, the store filtered of `rec.id` carries none. -/
lemma countP_token_zero_after_delete {l : List StoredRT} {t : RefreshTok} {rec : StoredRT}
    (hmem : rec ∈ l) (htok : rec.token = t)
    (hcount : l.countP (fun r => r.token == t) ≤ 1) :
    (l.filter (fun r => !(r.id == rec.id))).countP (fun r => r.token == t) = 0 := by
  rw [List.countP_eq_zero]
  intro r hr
  have hrl : r ∈ l := (List.mem_filter.mp hr).1
  have hrid : (!(r.id == rec.id)) = true := (List.mem_filter.mp hr).2
  have hrne : r ≠ rec := by
    intro he
    subst he
    simp at hrid
  intro hrt
  have h1 : rec ∈ l.filter (fun r => r.token == t) :=
    List.mem_filter.mpr ⟨hmem, by simp [htok]⟩
  have h2 : r ∈ l.filter (fun r => r.token == t) :=
    List.mem_filter.mpr ⟨hrl, hrt⟩
  have h3 : 2 ≤ (l.filter (fun r => r.token == t)).length :=
    two_le_length_of_mem_mem h2 h1 hrne
  rw [← List.countP_eq_length_filter] at h3
  omega

/-- Claim C2: once a `refreshToken` call has succeeded by consuming the
stored token `t` (minted at an instant other than this call's, and stored
at most once — Prisma's `token` column is unique), no row bearing `t`
survives, and any replay of `t` fails with an `AuthError`. -/
theorem c2_spent_refresh_token_replay_fails
    (db db1 : Db) (now now2 : Nat) (t : RefreshTok) (out : AccessTok × RefreshTok)
    (hcount : db.refreshTokens.countP (fun r => r.token == t) ≤ 1)
    (hiat : t.iat ≠ now)
    (hsucc : refreshToken db now t = (.ok out, db1)) :
    (∀ r ∈ db1.refreshTokens, r.token ≠ t) ∧
    ∃ msg, (refreshToken db1 now2 t).1 = .error (.authError msg) := by
  rcases hv : jwtVerifyRefresh t now with _ | uid
  · rw [refreshToken_verify_none hv] at hsucc
    cases hsucc
  rcases hf : refreshTokenFindFirst db t uid now with _ | rec
  · rw [refreshToken_find_none hv hf] at hsucc
    cases hsucc
  rcases hu : findUserById db t.uid with _ | user
  · rw [refreshToken_user_none hv hf hu] at hsucc
    cases hsucc
  rcases hact : user.active with _ | _
  · rw [refreshToken_user_inactive hv hf hu hact] at hsucc
    cases hsucc
  obtain ⟨hrecmem, hrectok, hrecuid, hrecexp⟩ := findFirst_spec hf
  have hany : db.refreshTokens.any (fun r => r.id == rec.id) = true :=
    List.any_eq_true.mpr ⟨rec, hrecmem, by simp⟩
  rw [refreshToken_success hv hf hu hact hany] at hsucc
  have hdb1 : db1 = refreshTokenCreate
      { db with refreshTokens := db.refreshTokens.filter (fun r => !(r.id == rec.id)) }
      (generateTokens user now).2 user.id (now + refreshTtl) := by
    cases hsucc
    rfl
  have hnew_ne : (generateTokens user now).2 ≠ t := by
    intro he
    apply hiat
    rw [← he]
    rfl
  have hnone : ∀ r ∈ db1.refreshTokens, r.token ≠ t := by
    intro r hr
    rw [hdb1] at hr
    simp only [refreshTokenCreate, List.mem_cons] at hr
    rcases hr with rfl | hr1
    · exact hnew_ne
    · have h0 := countP_token_zero_after_delete hrecmem hrectok hcount
      have := List.countP_eq_zero.mp h0 r hr1
      simpa using this
  refine ⟨hnone, ?_⟩
  rcases hv2 : jwtVerifyRefresh t now2 with _ | uid2
  · exact ⟨"Invalid refresh token", by rw [refreshToken_verify_none hv2]⟩
  · have hf2 : refreshTokenFindFirst db1 t uid2 now2 = none := by
      rw [refreshTokenFindFirst, List.find?_eq_none]
      intro r hr
      simp only [Bool.and_eq_true, beq_iff_eq, decide_eq_true_eq, not_and]
      intro he
      exact absurd he.1 (hnone r hr)
    exact ⟨"Invalid or expired refresh token", by rw [refreshToken_find_none hv2 hf2]⟩

/-- A store holding the active account and its persisted refresh token. -/
def sampleDbSession : Db :=
  { users := [sampleUserActive],
    refreshTokens := [⟨0, sampleTok, 1, refreshTtl⟩],
    bandMembers := [], nextUserId := 2, nextTokenId := 1 }

/-- The store after the active account's refresh token is rotated at
instant 5. -/
def sampleDbRotated : Db :=
  { users := [sampleUserActive],
    refreshTokens := [⟨1, mkRefreshTok 1 5, 1, 5 + refreshTtl⟩],
    bandMembers := [], nextUserId := 2, nextTokenId := 2 }

/-- Witness for C2: a concrete successful refresh at instant 5 consuming
the token minted at instant 0, then a replay at instant 9. -/
theorem c2_spent_refresh_token_replay_fails_witness :
    (∀ r ∈ sampleDbRotated.refreshTokens, r.token ≠ sampleTok) ∧
    ∃ msg, (refreshToken sampleDbRotated 9 sampleTok).1 = .error (.authError msg) :=
  c2_spent_refresh_token_replay_fails sampleDbSession sampleDbRotated 5 9 sampleTok
    (generateTokens sampleUserActive 5) (by decide) (by decide) (by decide)

lemma login_success (db : Db) (now : Nat) (email pw : String) (u : User)
    (hu : findUserByEmail db email = some u) (hact : u.active = true)
    (hpw : bcryptCompare pw u.password = true) :
    login db now email pw =
      (.ok (u, generateTokens u now),
       refreshTokenCreate db (generateTokens u now).2 u.id (now + refreshTtl)) := by
  unfold login
  rw [hu]
  simp [hact, hpw]

/-- `n` successive successful logins with the same credentials, the k-th
at instant `t0 + k`. -/
def loginN : Nat → Db → Nat → String → String → Db
  | 0, db, _, _, _ => db
  | n + 1, db, t0, email, pw => (login (loginN n db t0 email pw) (t0 + n) email pw).2

lemma loginN_components (db : Db) (t0 : Nat) (email pw : String) (u : User)
    (hu : findUserByEmail db email = some u) (hact : u.active = true)
    (hpw : bcryptCompare pw u.password = true) : ∀ n : Nat,
    (loginN n db t0 email pw).users = db.users ∧
    (loginN n db t0 email pw).nextTokenId = db.nextTokenId + n ∧
    (loginN n db t0 email pw).refreshTokens.length = db.refreshTokens.length + n ∧
    (∀ r ∈ db.refreshTokens, r ∈ (loginN n db t0 email pw).refreshTokens) ∧
    (∀ i, i < n →
      (⟨db.nextTokenId + i, mkRefreshTok u.id (t0 + i), u.id, (t0 + i) + refreshTtl⟩ :
          StoredRT) ∈ (loginN n db t0 email pw).refreshTokens) := by
  intro n
  induction n with
  | zero => simp [loginN]
  | succ n ih =>
    obtain ⟨hus, hnid, hlen, hold, hnew⟩ := ih
    have hu2 : findUserByEmail (loginN n db t0 email pw) email = some u := by
      rw [findUserByEmail, hus]
      exact hu
    have hl := login_success (loginN n db t0 email pw) (t0 + n) email pw u hu2 hact hpw
    have hstep : loginN (n + 1) db t0 email pw =
        refreshTokenCreate (loginN n db t0 email pw) (generateTokens u (t0 + n)).2 u.id
          ((t0 + n) + refreshTtl) := by
      show (login (loginN n db t0 email pw) (t0 + n) email pw).2 = _
      rw [hl]
    refine ⟨?_, ?_, ?_, ?_, ?_⟩
    · rw [hstep]
      simpa [refreshTokenCreate] using hus
    · rw [hstep]
      simp only [refreshTokenCreate]
      omega
    · rw [hstep]
      simp only [refreshTokenCreate, List.length_cons]
      omega
    · intro r hr
      rw [hstep]
      simp only [refreshTokenCreate, List.mem_cons]
      exact Or.inr (hold r hr)
    · intro i hi
      rw [hstep]
      simp only [refreshTokenCreate, List.mem_cons]
      rcases Nat.lt_succ_iff_lt_or_eq.mp hi with hi1 | rfl
      · exact Or.inr (hnew i hi1)
      · left
        rw [hnid]
        rfl

/-- The login half of C9, as before: `n` logins insert `n` rows, keep all
prior rows, and each fresh token is redeemable. -/
lemma c9_login_part
    (db : Db) (t0 n now2 : Nat) (email pw : String) (u : User)
    (hu : findUserByEmail db email = some u) (hact : u.active = true)
    (hpw : bcryptCompare pw u.password = true)
    (hid : findUserById db u.id = some u)
    (hn2 : now2 < t0 + refreshTtl) :
    (loginN n db t0 email pw).refreshTokens.length = db.refreshTokens.length + n ∧
    (∀ r ∈ db.refreshTokens, r ∈ (loginN n db t0 email pw).refreshTokens) ∧
    (∀ i, i < n → ∃ out dbx,
      refreshToken (loginN n db t0 email pw) now2 (mkRefreshTok u.id (t0 + i)) =
        (.ok out, dbx)) := by
  obtain ⟨hus, hnid, hlen, hold, hnew⟩ := loginN_components db t0 email pw u hu hact hpw n
  refine ⟨hlen, hold, ?_⟩
  intro i hi
  have hexp : now2 < (t0 + i) + refreshTtl := by omega
  have hv : jwtVerifyRefresh (mkRefreshTok u.id (t0 + i)) now2 = some u.id := by
    simp [jwtVerifyRefresh, mkRefreshTok, hexp]
  have hmem := hnew i hi
  have hsome : (refreshTokenFindFirst (loginN n db t0 email pw)
      (mkRefreshTok u.id (t0 + i)) u.id now2).isSome = true := by
    rw [refreshTokenFindFirst, List.find?_isSome]
    refine ⟨_, hmem, ?_⟩
    simp [hexp]
  obtain ⟨rec, hf⟩ := Option.isSome_iff_exists.mp hsome
  have hu3 : findUserById (loginN n db t0 email pw) (mkRefreshTok u.id (t0 + i)).uid
      = some u := by
    rw [findUserById, hus]
    exact hid
  have hany : (loginN n db t0 email pw).refreshTokens.any (fun r => r.id == rec.id)
      = true :=
    List.any_eq_true.mpr ⟨rec, (findFirst_spec hf).1, by simp⟩
  exact ⟨_, _, refreshToken_success hv hf hu3 hact hany⟩

/-- The register half of C9: a successful `register` prepends exactly one
refresh-token row to the otherwise unchanged store, and the token it mints
is redeemable by `refreshToken` from that state. -/
lemma c9_register_part
    (db : Db) (email2 pw2 fn ln : String) (tr now3 : Nat)
    (hfresh : findUserByEmail db email2 = none)
    (hn3 : now3 < tr + refreshTtl) :
    (register db tr email2 pw2 fn ln).2.refreshTokens =
      (⟨db.nextTokenId, mkRefreshTok db.nextUserId tr, db.nextUserId, tr + refreshTtl⟩ :
        StoredRT) :: db.refreshTokens ∧
    (∀ r ∈ db.refreshTokens, r ∈ (register db tr email2 pw2 fn ln).2.refreshTokens) ∧
    (∃ out dbx, refreshToken (register db tr email2 pw2 fn ln).2 now3
        (mkRefreshTok db.nextUserId tr) = (.ok out, dbx)) := by
  have hreg := register_success db tr email2 pw2 fn ln hfresh
  have hrts : (register db tr email2 pw2 fn ln).2.refreshTokens =
      (⟨db.nextTokenId, mkRefreshTok db.nextUserId tr, db.nextUserId, tr + refreshTtl⟩ :
        StoredRT) :: db.refreshTokens := by
    rw [hreg]
    rfl
  refine ⟨hrts, ?_, ?_⟩
  · intro r hr
    rw [hrts]
    exact List.mem_cons_of_mem _ hr
  · have hv : jwtVerifyRefresh (mkRefreshTok db.nextUserId tr) now3 = some db.nextUserId := by
      simp [jwtVerifyRefresh, mkRefreshTok, hn3]
    have hmem :
        (⟨db.nextTokenId, mkRefreshTok db.nextUserId tr, db.nextUserId, tr + refreshTtl⟩ :
          StoredRT) ∈ (register db tr email2 pw2 fn ln).2.refreshTokens := by
      rw [hrts]
      exact List.mem_cons_self _ _
    have hsome : (refreshTokenFindFirst (register db tr email2 pw2 fn ln).2
        (mkRefreshTok db.nextUserId tr) db.nextUserId now3).isSome = true := by
      rw [refreshTokenFindFirst, List.find?_isSome]
      refine ⟨_, hmem, ?_⟩
      simp [hn3]
    obtain ⟨rec, hf⟩ := Option.isSome_iff_exists.mp hsome
    have hu3 : findUserById (register db tr email2 pw2 fn ln).2
        (mkRefreshTok db.nextUserId tr).uid = some (newUserOf db email2 pw2 fn ln) := by
      rw [hreg]
      show List.find? _ (newUserOf db email2 pw2 fn ln :: db.users) = _
      rw [List.find?_cons_of_pos]
      simp [newUserOf, mkRefreshTok]
    have hact2 : (newUserOf db email2 pw2 fn ln).active = true := rfl
    have hany : (register db tr email2 pw2 fn ln).2.refreshTokens.any
        (fun r => r.id == rec.id) = true :=
      List.any_eq_true.mpr ⟨rec, (findFirst_spec hf).1, by simp⟩
    exact ⟨_, _, refreshToken_success hv hf hu3 hact2 hany⟩

/-- Claim C9: every successful `login` and every successful `register`
only ever inserts a refresh-token row, deleting none.  After `n`
successful logins the store holds `n` additional rows, every previously
stored row is still present, and each of the `n` freshly stored tokens can
individually be redeemed by `refreshToken` from that same state; likewise
a successful `register` prepends exactly one row to the unchanged store,
and the token it mints is redeemable.  The store enforces no
single-valid-refresh-token-per-identity rule. -/
theorem c9_logins_accumulate_redeemable_tokens
    (db : Db) (t0 n now2 : Nat) (email pw : String) (u : User)
    (hu : findUserByEmail db email = some u) (hact : u.active = true)
    (hpw : bcryptCompare pw u.password = true)
    (hid : findUserById db u.id = some u)
    (hn2 : now2 < t0 + refreshTtl)
    (email2 pw2 fn ln : String) (tr now3 : Nat)
    (hfresh : findUserByEmail db email2 = none)
    (hn3 : now3 < tr + refreshTtl) :
    ((loginN n db t0 email pw).refreshTokens.length = db.refreshTokens.length + n ∧
    (∀ r ∈ db.refreshTokens, r ∈ (loginN n db t0 email pw).refreshTokens) ∧
    (∀ i, i < n → ∃ out dbx,
      refreshToken (loginN n db t0 email pw) now2 (mkRefreshTok u.id (t0 + i)) =
        (.ok out, dbx))) ∧
    ((register db tr email2 pw2 fn ln).2.refreshTokens =
      (⟨db.nextTokenId, mkRefreshTok db.nextUserId tr, db.nextUserId, tr + refreshTtl⟩ :
        StoredRT) :: db.refreshTokens ∧
    (∀ r ∈ db.refreshTokens, r ∈ (register db tr email2 pw2 fn ln).2.refreshTokens) ∧
    (∃ out dbx, refreshToken (register db tr email2 pw2 fn ln).2 now3
        (mkRefreshTok db.nextUserId tr) = (.ok out, dbx))) := by
  refine ⟨?_, ?_⟩
  · exact c9_login_part db t0 n now2 email pw u hu hact hpw hid hn2
  · exact c9_register_part db email2 pw2 fn ln tr now3 hfresh hn3

/-- Witness for C9: two logins with the registered account, both stored
tokens present and each redeemable; plus a registration of a fresh email
prepending one redeemable row. -/
theorem c9_logins_accumulate_redeemable_tokens_witness :
    (((loginN 2 sampleDbActive 0 "a@x.com" "Abcd1234").refreshTokens.length =
      sampleDbActive.refreshTokens.length + 2 ∧
    (∀ r ∈ sampleDbActive.refreshTokens,
      r ∈ (loginN 2 sampleDbActive 0 "a@x.com" "Abcd1234").refreshTokens) ∧
    (∀ i, i < 2 → ∃ out dbx,
      refreshToken (loginN 2 sampleDbActive 0 "a@x.com" "Abcd1234") 3
          (mkRefreshTok 1 (0 + i)) = (.ok out, dbx))) ∧
    ((register sampleDbActive 10 "c@x.com" "Qwer9999" "Cy" "Doe").2.refreshTokens =
      (⟨sampleDbActive.nextTokenId, mkRefreshTok sampleDbActive.nextUserId 10,
        sampleDbActive.nextUserId, 10 + refreshTtl⟩ : StoredRT) ::
        sampleDbActive.refreshTokens ∧
    (∀ r ∈ sampleDbActive.refreshTokens,
      r ∈ (register sampleDbActive 10 "c@x.com" "Qwer9999" "Cy" "Doe").2.refreshTokens) ∧
    (∃ out dbx, refreshToken (register sampleDbActive 10 "c@x.com" "Qwer9999" "Cy" "Doe").2
        12 (mkRefreshTok sampleDbActive.nextUserId 10) = (.ok out, dbx)))) := by
  have H := c9_logins_accumulate_redeemable_tokens sampleDbActive 0 2 3 "a@x.com"
    "Abcd1234" sampleUserActive (by decide) (by decide) (by decide) (by decide) (by decide)
    "c@x.com" "Qwer9999" "Cy" "Doe" 10 12 (by decide) (by decide)
  exact H

/-!
Concurrency model for two in-flight `refreshToken` calls.  A schedule is a
list of booleans, `true` meaning the first request performs its next
atomic step, `false` the second; steps on a finished request are no-ops.
`nA` and `nB` are the `Date.now()` instants of the two requests.
-/

/-- Run a schedule of interleaved steps of two concurrent `refreshToken`
requests over the shared store. -/
def runSched (nA nB : Nat) : List Bool → Db × RState × RState → Db × RState × RState
  | [], st => st
  | true :: rest, (db, a, b) =>
    runSched nA nB rest ((stepR nA (db, a)).1, (stepR nA (db, a)).2, b)
  | false :: rest, (db, a, b) =>
    runSched nA nB rest ((stepR nB (db, b)).1, a, (stepR nB (db, b)).2)

/-- Did this request finish successfully? -/
def isOkDone : RState → Bool
  | .done (.ok _) => true
  | _ => false

/-- Number of stored rows bearing token `t`. -/
def tCount (db : Db) (t : RefreshTok) : Nat :=
  db.refreshTokens.countP (fun r => r.token == t)

/-- Consumption weight of a request state: `1` once the request has
deleted the stored row (and hence also once it is successfully done). -/
def wgt : RState → Nat
  | .deleted _ => 1
  | .done (.ok _) => 1
  | _ => 0

@[simp] lemma wgt_start (tok : RefreshTok) : wgt (.start tok) = 0 := rfl

@[simp] lemma wgt_found (tok : RefreshTok) (rec : StoredRT) : wgt (.found tok rec) = 0 := rfl

@[simp] lemma wgt_haveUser (rec : StoredRT) (u : User) : wgt (.haveUser rec u) = 0 := rfl

@[simp] lemma wgt_deleted (u : User) : wgt (.deleted u) = 1 := rfl

@[simp] lemma wgt_done_err (e : AppErr) : wgt (.done (.error e)) = 0 := rfl

@[simp] lemma wgt_done_ok (o : AccessTok × RefreshTok) : wgt (.done (.ok o)) = 1 := rfl

lemma wgt_eq_one_of_isOkDone {s : RState} (h : isOkDone s = true) : wgt s = 1 := by
  cases s with
  | done res => cases res with
    | ok _ => rfl
    | error _ => simp [isOkDone] at h
  | start tok => simp [isOkDone] at h
  | found tok rec => simp [isOkDone] at h
  | haveUser rec u => simp [isOkDone] at h
  | deleted u => simp [isOkDone] at h

/-- What a request in a given control state is entitled to assume about
the shared store: its token is the one under scrutiny, and the row it
found still is the only possible bearer of its row id. -/
def reqInv (t : RefreshTok) (db : Db) : RState → Prop
  | .start tok => tok = t
  | .found tok rec => tok = t ∧ rec.token = t ∧ rec.id < db.nextTokenId ∧
      ∀ r ∈ db.refreshTokens, r.id = rec.id → r = rec
  | .haveUser rec _ => rec.token = t ∧ rec.id < db.nextTokenId ∧
      ∀ r ∈ db.refreshTokens, r.id = rec.id → r = rec
  | .deleted _ => True
  | .done _ => True

/-- The run invariant: row ids are pairwise distinct and below the id
counter, and the number of stored `t`-rows plus the consumption weights of
the two requests never exceeds one. -/
def Inv (t : RefreshTok) (db : Db) (a b : RState) : Prop :=
  db.refreshTokens.Pairwise (fun r1 r2 => r1.id ≠ r2.id) ∧
  (∀ r ∈ db.refreshTokens, r.id < db.nextTokenId) ∧
  tCount db t + wgt a + wgt b ≤ 1 ∧
  reqInv t db a ∧ reqInv t db b

lemma inv_swap {t : RefreshTok} {db : Db} {a b : RState} (h : Inv t db a b) :
    Inv t db b a := by
  obtain ⟨h1, h2, h3, h4, h5⟩ := h
  exact ⟨h1, h2, by omega, h5, h4⟩

lemma pairwise_id_unique : ∀ (l : List StoredRT),
    l.Pairwise (fun r1 r2 => r1.id ≠ r2.id) →
    ∀ rec ∈ l, ∀ r ∈ l, r.id = rec.id → r = rec := by
  intro l
  induction l with
  | nil =>
    intro _ rec hrec
    cases hrec
  | cons x xs ih =>
    intro hpw rec hrec r hr hid
    have hx : ∀ y ∈ xs, x.id ≠ y.id := (List.pairwise_cons.mp hpw).1
    have hxs := (List.pairwise_cons.mp hpw).2
    rcases List.mem_cons.mp hrec with rfl | hrec1
    · rcases List.mem_cons.mp hr with rfl | hr1
      · rfl
      · exact absurd hid.symm (hx r hr1)
    · rcases List.mem_cons.mp hr with rfl | hr1
      · exact absurd hid (hx rec hrec1)
      · exact ih hxs rec hrec1 r hr1 hid

/-- A request's entitlement survives a shrink of the store that keeps the
id counter. -/
lemma reqInv_shrink {t : RefreshTok} {db db2 : Db} {s : RState}
    (hsub : ∀ r ∈ db2.refreshTokens, r ∈ db.refreshTokens)
    (hnid : db2.nextTokenId = db.nextTokenId)
    (h : reqInv t db s) : reqInv t db2 s := by
  cases s with
  | start tok => exact h
  | found tok rec =>
    obtain ⟨h1, h2, h3, h4⟩ := h
    exact ⟨h1, h2, hnid ▸ h3, fun r hr => h4 r (hsub r hr)⟩
  | haveUser rec u =>
    obtain ⟨h2, h3, h4⟩ := h
    exact ⟨h2, hnid ▸ h3, fun r hr => h4 r (hsub r hr)⟩
  | deleted u => trivial
  | done res => trivial

/-- A request's entitlement survives the creation of a fresh row (whose id
is the current counter, above every id the entitlement mentions). -/
lemma reqInv_after_create {t : RefreshTok} {db : Db} {s : RState}
    (tok : RefreshTok) (uid expiresAt : Nat)
    (h : reqInv t db s) : reqInv t (refreshTokenCreate db tok uid expiresAt) s := by
  cases s with
  | start tok2 => exact h
  | found tok2 rec =>
    obtain ⟨h1, h2, h3, h4⟩ := h
    refine ⟨h1, h2, ?_, ?_⟩
    · simp only [refreshTokenCreate]
      omega
    · intro r hr hid
      simp only [refreshTokenCreate, List.mem_cons] at hr
      rcases hr with rfl | hr1
      · exact absurd hid (by simp; omega)
      · exact h4 r hr1 hid
  | haveUser rec u =>
    obtain ⟨h2, h3, h4⟩ := h
    refine ⟨h2, ?_, ?_⟩
    · simp only [refreshTokenCreate]
      omega
    · intro r hr hid
      simp only [refreshTokenCreate, List.mem_cons] at hr
      rcases hr with rfl | hr1
      · exact absurd hid (by simp; omega)
      · exact h4 r hr1 hid
  | deleted u => trivial
  | done res => trivial

/-- One atomic step of either request (here: of the first, by symmetry)
preserves the run invariant, provided the stepping request's replacement
token cannot collide with `t` (its minting instant differs from `t`'s). -/
lemma stepR_inv (t : RefreshTok) (now : Nat) (hnow : t.iat ≠ now) (db : Db) (a b : RState)
    (h : Inv t db a b) :
    Inv t (stepR now (db, a)).1 (stepR now (db, a)).2 b := by
  obtain ⟨hids, hbound, hsum, hra, hrb⟩ := h
  cases a with
  | start tok =>
    have htok : tok = t := hra
    subst htok
    rcases hv : jwtVerifyRefresh tok now with _ | uid
    · simp only [stepR, hv]
      refine ⟨hids, hbound, ?_, trivial, hrb⟩
      simpa using hsum
    · rcases hf : refreshTokenFindFirst db tok uid now with _ | rec
      · simp only [stepR, hv, hf]
        refine ⟨hids, hbound, ?_, trivial, hrb⟩
        simpa using hsum
      · obtain ⟨hmem, htk, _, _⟩ := findFirst_spec hf
        simp only [stepR, hv, hf]
        refine ⟨hids, hbound, ?_, ?_, hrb⟩
        · simpa using hsum
        · exact ⟨rfl, htk, hbound rec hmem,
            fun r hr hi => pairwise_id_unique _ hids rec hmem r hr hi⟩
  | found tok rec =>
    obtain ⟨htok, htk, hlt, huniq⟩ := hra
    rcases hu : findUserById db tok.uid with _ | user
    · simp only [stepR, hu]
      refine ⟨hids, hbound, ?_, trivial, hrb⟩
      simpa using hsum
    · rcases hact : user.active with _ | _
      · simp only [stepR, hu, hact, Bool.false_eq_true, if_false]
        refine ⟨hids, hbound, ?_, trivial, hrb⟩
        simpa using hsum
      · simp only [stepR, hu, hact, if_true]
        refine ⟨hids, hbound, ?_, ⟨htk, hlt, huniq⟩, hrb⟩
        simpa using hsum
  | haveUser rec user =>
    obtain ⟨htk, hlt, huniq⟩ := hra
    rcases hd : refreshTokenDelete db rec.id with e | db2
    · simp only [stepR, hd]
      refine ⟨hids, hbound, ?_, trivial, hrb⟩
      simpa using hsum
    · have hshape : db.refreshTokens.any (fun r => r.id == rec.id) = true ∧
          db2 = { db with
                  refreshTokens := db.refreshTokens.filter (fun r => !(r.id == rec.id)) } := by
        unfold refreshTokenDelete at hd
        cases hany : db.refreshTokens.any (fun r => r.id == rec.id) with
        | false =>
          rw [hany] at hd
          cases hd
        | true =>
          rw [hany] at hd
          simp only [if_true] at hd
          cases hd
          exact ⟨rfl, rfl⟩
      obtain ⟨hany, hdb2⟩ := hshape
      subst hdb2
      obtain ⟨r0, hr0mem, hr0id⟩ := List.any_eq_true.mp hany
      have hr0 : r0 = rec := huniq r0 hr0mem (by simpa using hr0id)
      have hmem : rec ∈ db.refreshTokens := hr0 ▸ hr0mem
      have hpos : 1 ≤ tCount db t := by
        rw [tCount]
        have hgt : 0 < db.refreshTokens.countP (fun r => r.token == t) :=
          List.countP_pos_iff.mpr ⟨rec, hmem, by simpa using htk⟩
        omega
      have hcle : tCount db t ≤ 1 := by
        simp only [wgt_haveUser] at hsum
        omega
      have hzero :
          (db.refreshTokens.filter (fun r => !(r.id == rec.id))).countP
            (fun r => r.token == t) = 0 :=
        countP_token_zero_after_delete hmem htk hcle
      have hwb : wgt b = 0 := by
        simp only [wgt_haveUser] at hsum
        omega
      simp only [stepR, hd]
      refine ⟨?_, ?_, ?_, trivial, ?_⟩
      · exact hids.sublist (List.filter_sublist _)
      · intro r hr
        exact hbound r (List.mem_of_mem_filter hr)
      · simp only [tCount, hzero, wgt_deleted, hwb]
        omega
      · exact reqInv_shrink (fun r hr => List.mem_of_mem_filter hr) rfl hrb
  | deleted user =>
    have hne : (generateTokens user now).2 ≠ t := by
      intro he
      apply hnow
      rw [← he]
      rfl
    simp only [stepR]
    refine ⟨?_, ?_, ?_, trivial, ?_⟩
    · simp only [refreshTokenCreate]
      refine List.pairwise_cons.mpr ⟨?_, hids⟩
      intro r hr
      have := hbound r hr
      simp only
      omega
    · intro r hr
      simp only [refreshTokenCreate, List.mem_cons] at hr
      rcases hr with rfl | hr1
      · simp only [refreshTokenCreate]
        omega
      · have := hbound r hr1
        simp only [refreshTokenCreate]
        omega
    · have hcnt : tCount (refreshTokenCreate db (generateTokens user now).2 user.id
          (now + refreshTtl)) t = tCount db t := by
        simp only [tCount, refreshTokenCreate]
        rw [List.countP_cons_of_neg]
        simp [hne]
      rw [hcnt]
      simp only [wgt_deleted, wgt_done_ok] at hsum ⊢
      omega
    · exact reqInv_after_create _ _ _ hrb
  | done res =>
    simp only [stepR]
    exact ⟨hids, hbound, hsum, trivial, hrb⟩

lemma runSched_inv (t : RefreshTok) (nA nB : Nat) (hA : t.iat ≠ nA) (hB : t.iat ≠ nB) :
    ∀ (sched : List Bool) (db : Db) (a b : RState), Inv t db a b →
      Inv t (runSched nA nB sched (db, a, b)).1
        (runSched nA nB sched (db, a, b)).2.1
        (runSched nA nB sched (db, a, b)).2.2 := by
  intro sched
  induction sched with
  | nil =>
    intro db a b h
    simpa [runSched] using h
  | cons c rest ih =>
    intro db a b h
    cases c
    · have h1 := inv_swap (stepR_inv t nB hB db b a (inv_swap h))
      simpa only [runSched] using ih _ _ _ h1
    · have h1 := stepR_inv t nA hA db a b h
      simpa only [runSched] using ih _ _ _ h1

/-- Claim C8, amended at-most-one-wins part: for any store whose
refresh-token rows have pairwise-distinct ids below the id counter and
hold the presented token `t` at most once (Prisma id and token
uniqueness), and any interleaving of two concurrent `refreshToken` calls
presenting `t` (each minting at an instant other than `t`'s issuance
instant), the two calls never both succeed. -/
theorem c8_concurrent_refresh_at_most_one_wins
    (db : Db) (t : RefreshTok) (nA nB : Nat) (sched : List Bool)
    (hids : db.refreshTokens.Pairwise (fun r1 r2 => r1.id ≠ r2.id))
    (hbound : ∀ r ∈ db.refreshTokens, r.id < db.nextTokenId)
    (hcount : tCount db t ≤ 1)
    (hA : t.iat ≠ nA) (hB : t.iat ≠ nB) :
    ¬(isOkDone (runSched nA nB sched (db, .start t, .start t)).2.1 = true ∧
      isOkDone (runSched nA nB sched (db, .start t, .start t)).2.2 = true) := by
  rintro ⟨ha, hb⟩
  have h0 : Inv t db (.start t) (.start t) := by
    refine ⟨hids, hbound, ?_, rfl, rfl⟩
    simpa using hcount
  have hI := runSched_inv t nA nB hA hB sched db (.start t) (.start t) h0
  have hsum := hI.2.2.1
  rw [wgt_eq_one_of_isOkDone ha, wgt_eq_one_of_isOkDone hb] at hsum
  omega

/-- Witness for the amended C8 theorem: a concrete store with one stored
token and a concrete interleaving of the two calls. -/
theorem c8_concurrent_refresh_at_most_one_wins_witness :
    ¬(isOkDone (runSched 5 5 [true, true, false, false, true, true, false]
        (sampleDbSession, .start sampleTok, .start sampleTok)).2.1 = true ∧
      isOkDone (runSched 5 5 [true, true, false, false, true, true, false]
        (sampleDbSession, .start sampleTok, .start sampleTok)).2.2 = true) :=
  c8_concurrent_refresh_at_most_one_wins sampleDbSession sampleTok 5 5
    [true, true, false, false, true, true, false]
    (by decide) (by decide) (by decide) (by decide) (by decide)

/-- Claim C8, counterexample: when both calls pass `findFirst` before
either reaches `delete`, the winner completes but the loser's `delete`
throws Prisma's record-not-found error, which the error handler surfaces
as 400 "Database operation failed" — not the claimed invalid-refresh-token
`AuthError` (401).  Moreover after the winner's `delete` and before its
`create` the store holds no refresh-token row at all, so consumption is
not atomic with issuance of the replacement. -/
theorem c8_loser_gets_database_error_not_auth_error :
    isOkDone (runSched 5 5 [true, true, false, false, true, true, false]
      (sampleDbSession, .start sampleTok, .start sampleTok)).2.1 = true ∧
    (runSched 5 5 [true, true, false, false, true, true, false]
      (sampleDbSession, .start sampleTok, .start sampleTok)).2.2 =
      .done (.error (.prismaKnownRequestError "Record to delete does not exist.")) ∧
    errorHandler (.prismaKnownRequestError "Record to delete does not exist.") =
      (400, "Database operation failed") ∧
    errorHandler (.prismaKnownRequestError "Record to delete does not exist.") ≠
      errorHandler (.authError "Invalid refresh token") ∧
    errorHandler (.prismaKnownRequestError "Record to delete does not exist.") ≠
      errorHandler (.authError "Invalid or expired refresh token") ∧
    (runSched 5 5 [true, true, false, false, true]
      (sampleDbSession, .start sampleTok, .start sampleTok)).1.refreshTokens = [] := by
  decide

end BandAuth
